import Mathlib

/-!
Verification of the routing / reasoning-orchestration engine of the
enterprise multi-agent platform, as a shallow embedding in Lean 4.

Embedding conventions:
* Python `int` scores are `Nat`; Python `float` confidence/coverage values
  are modelled in `ℚ`: the properties at stake (exact 0.5 fallback,
  the 0.95 cap, monotonicity, threshold comparisons against 0.5) are
  stated and settled in exact rational arithmetic.  Where a float
  comparison in the source is exact (halving or comparing integers no
  larger than a few dozen), the embedding uses the equivalent integer
  comparison and says so at the definition.
* Python `None`-able strings are `Option String`; Python truthiness of a
  string value is `pyTruthy` below.
* Wall-clock durations are not modelled (fields that hold elapsed
  milliseconds are carried structurally with value 0).
* The text-generation capability is an external collaborator: the
  reasoning loop consumes, per iteration, the triple of labelled fields
  that the field-extraction step produces from the generated text.
-/

namespace Platform

/-- Case-insensitive lowering of an ASCII string, as Python `str.lower()`
acts on the ASCII keyword tables and queries of the router. -/
def pyLower (s : String) : String := ⟨s.data.map Char.toLower⟩

/-- Leading-segment test on character lists. -/
def charsHasPre : List Char → List Char → Bool
  | [], _ => true
  | _ :: _, [] => false
  | a :: as, b :: bs => a == b && charsHasPre as bs

/-- Substring containment on character lists: Python `needle in hay`. -/
def charsHasSub : List Char → List Char → Bool
  | [], needle => charsHasPre needle []
  | a :: t, needle => charsHasPre needle (a :: t) || charsHasSub t needle

/-- Python `needle in hay` for strings. -/
def strHasSub (hay needle : String) : Bool :=
  charsHasSub hay.toList needle.toList

/-- `AgentType` enum of `orchestrator.py`. -/
inductive AgentType where
  | finance
  | legal
  | healthcare
  | general
deriving DecidableEq, Repr

/-- The `.value` of each `AgentType` member. -/
def AgentType.value : AgentType → String
  | .finance => "finance"
  | .legal => "legal"
  | .healthcare => "healthcare"
  | .general => "general"

/-- `RoutingDecision` dataclass of `orchestrator.py`. -/
structure RoutingDecision where
  primary_agent : AgentType
  secondary_agents : List AgentType
  confidence : ℚ
  reasoning : String
  requires_multi_agent : Bool
deriving DecidableEq, Repr

/-- Finance keyword table of `AgentOrchestrator.domain_keywords`. -/
def financeKeywords : List String :=
  ["stock", "portfolio", "investment", "market", "trading", "financial",
   "earnings", "revenue", "profit", "loss", "SEC", "10-K", "10-Q",
   "valuation", "DCF", "P/E", "ROI", "risk", "hedge", "derivative",
   "bond", "equity", "dividend", "IPO", "M&A", "balance sheet"]

/-- Legal keyword table of `AgentOrchestrator.domain_keywords`. -/
def legalKeywords : List String :=
  ["contract", "agreement", "clause", "legal", "compliance", "GDPR",
   "HIPAA", "liability", "indemnification", "NDA", "confidential",
   "intellectual property", "IP", "trademark", "patent", "lawsuit",
   "litigation", "regulatory", "terms of service", "privacy policy"]

/-- Healthcare keyword table of `AgentOrchestrator.domain_keywords`. -/
def healthcareKeywords : List String :=
  ["patient", "clinical", "medical", "diagnosis", "treatment",
   "medication", "drug", "prescription", "ICD", "CPT", "health",
   "disease", "symptom", "vital", "lab", "radiology", "surgery",
   "hospital", "physician", "nurse", "HIPAA", "PHI", "EHR"]

/-- Keyword table per domain, in the insertion order of the Python dict
`self.domain_keywords` (finance, legal, healthcare). -/
def domainKeywords : List (AgentType × List String) :=
  [(.finance, financeKeywords), (.legal, legalKeywords),
   (.healthcare, healthcareKeywords)]

/-- `score = sum(1 for kw in keywords if kw.lower() in query_lower)`. -/
def domainScore (query_lower : String) (keywords : List String) : Nat :=
  (keywords.filter (fun kw => strHasSub query_lower (pyLower kw))).length

/-- The `scores` dict of `analyze_and_route`, in insertion order. -/
def scoreList (query : String) : List (AgentType × Nat) :=
  domainKeywords.map (fun p => (p.1, domainScore (pyLower query) p.2))

/-- `max(scores.values())` (the dict is non-empty, so the Python guard
`if scores.values() else 0` never yields the 0 branch). -/
def maxScore (query : String) : Nat :=
  ((scoreList query).map Prod.snd).foldl max 0

/-- Python `max(scores, key=scores.get)`: first key attaining the maximal
value (a later element replaces the running best only when strictly
greater). -/
def argmaxFirst (l : List (AgentType × Nat)) (dflt : AgentType) : AgentType :=
  match l with
  | [] => dflt
  | x :: xs => (xs.foldl (fun best p => if p.2 > best.2 then p else best) x).1

/-- The `primary` variable of `analyze_and_route`. -/
def routePrimary (query : String) : AgentType :=
  if maxScore query = 0 then .general
  else argmaxFirst (scoreList query) .general

/-- The `confidence` variable of `analyze_and_route`. -/
def routeConfidence (query : String) : ℚ :=
  if maxScore query = 0 then 1/2
  else min (95/100) (1/2 + (maxScore query : ℚ) * (1/10))

/-- The `secondary` list of `analyze_and_route`: the loop appends, in
dict order, every non-primary domain with a positive score. -/
def routeSecondary (query : String) : List AgentType :=
  ((scoreList query).filter
    (fun p => p.1 != routePrimary query && 0 < p.2)).map Prod.fst

/-- The `requires_multi` flag of `analyze_and_route`: set when some
appended secondary satisfies `score >= max_score * 0.5`.  Halving an
integer is exact in binary floating point, so the source's float
comparison coincides with the exact comparison `max_score ≤ 2 * score`. -/
def routeRequiresMulti (query : String) : Bool :=
  (scoreList query).any (fun p =>
    p.1 != routePrimary query && 0 < p.2 && maxScore query ≤ 2 * p.2)

/-- `AgentOrchestrator.analyze_and_route` (pure routing core; the
function performs no I/O). -/
def analyze_and_route (query : String) : RoutingDecision :=
  { primary_agent := routePrimary query
    secondary_agents := routeSecondary query
    confidence := routeConfidence query
    reasoning :=
      "Detected " ++ toString (maxScore query) ++ " keyword matches for "
        ++ (routePrimary query).value ++ " domain."
        ++ (if (routeSecondary query).isEmpty then ""
            else " Also found relevance to: "
              ++ toString ((routeSecondary query).map AgentType.value))
    requires_multi_agent := routeRequiresMulti query }

/-- The `RoutingDecision` built by `AgentOrchestrator.run`: a truthy
(non-empty) `force_agents` list bypasses the router. -/
def runRouting (query : String) (force_agents : List AgentType) :
    RoutingDecision :=
  match force_agents with
  | [] => analyze_and_route query
  | a :: rest =>
      { primary_agent := a
        secondary_agents := rest
        confidence := 1
        reasoning := "Agents forced by user"
        requires_multi_agent := decide (0 < rest.length) }

/-! ### Reasoning loop (`base_agent.py`) -/

/-- `AgentStatus` enum of `base_agent.py`. -/
inductive AgentStatus where
  | idle
  | thinking
  | executingTool
  | generating
  | completed
  | error
deriving DecidableEq, Repr

/-- Python truthiness of an optional string: `None` and `""` are falsy. -/
def pyTruthy (o : Option String) : Bool :=
  match o with
  | none => false
  | some s => decide (s ≠ "")

/-- Python `a or b` on optional strings. -/
def pyOr (a b : Option String) : Option String :=
  if pyTruthy a then a else b

/-- Python `str.strip()` restricted to the ASCII whitespace that
`Char.isWhitespace` covers (space, tab, CR, LF). -/
def pyStrip (s : String) : String :=
  ⟨((s.data.dropWhile Char.isWhitespace).reverse.dropWhile
      Char.isWhitespace).reverse⟩

/-- Python `str.upper()` on ASCII text. -/
def pyUpper (s : String) : String := ⟨s.data.map Char.toUpper⟩

/-- `action and action.strip().upper() == "FINAL_ANSWER"`. -/
def isFinalAnswer (action : Option String) : Bool :=
  match action with
  | none => false
  | some a => decide (a ≠ "") && decide (pyUpper (pyStrip a) = "FINAL_ANSWER")

/-- The argument mapping handed to a tool, as produced from
`ACTION_INPUT`: a successfully `json.loads`-parsed payload, the
`{"query": raw}` fallback after a `JSONDecodeError`, or the empty dict
used when the field is falsy. -/
inductive ToolInput where
  | emptyDict
  | jsonOf (raw : String)
  | queryWrap (raw : String)
deriving DecidableEq, Repr

/-- `json.loads(action_input_raw) if action_input_raw else {}`, with the
`JSONDecodeError` fallback to `{"query": action_input_raw}`.  Which raw
strings parse as JSON is external detail, abstracted as `jsonOk`. -/
def parseActionInput (jsonOk : String → Bool) (raw : Option String) :
    ToolInput :=
  match raw with
  | none => .emptyDict
  | some s =>
      if s = "" then .emptyDict
      else if jsonOk s then .jsonOf s else .queryWrap s

/-- The agent's tool registry: name → invocable, `none` for an
unregistered name.  A tool either returns a string result or raises
(`Except.error` carries `str(e)`). -/
def ToolSet : Type := String → Option (ToolInput → Except String String)

/-- `BaseAgent._execute_tool`: total — unknown tools and raising tools
both become error strings. -/
def execute_tool (tools : ToolSet) (tool_name : String)
    (parameters : ToolInput) : String :=
  match tools tool_name with
  | none => "Error: Unknown tool \x27" ++ tool_name ++ "\x27"
  | some f =>
      match f parameters with
      | .ok r => r
      | .error e => "Error executing " ++ tool_name ++ ": " ++ e

/-- `AgentThought` dataclass (timestamp omitted: wall-clock).  `thought`
and `action` are `Option` because `_extract_section` returns `None` for
a missing label. -/
structure AgentThought where
  step : Nat
  thought : Option String
  action : Option String
  action_input : Option ToolInput := none
  observation : Option String := none
deriving DecidableEq, Repr

/-- The three labelled fields `_extract_section` recovers from one
generated response.  The loop consumes responses only through this
triple, so a run is driven by a `Nat → ParsedResponse` stream. -/
structure ParsedResponse where
  thought : Option String := none
  action : Option String := none
  action_input_raw : Option String := none
deriving DecidableEq, Repr

/-- The observable outcome of `_reason_and_act`: the `AgentResponse`
fields the claims speak about plus the final agent status.  `answer` is
`Option` because Python can place `None` there. -/
structure AgentRunResult where
  status : AgentStatus
  answer : Option String
  thoughts : List AgentThought
  iterations : Nat
  incomplete : Bool
deriving DecidableEq, Repr

/-- A Python exception escaping the reasoning loop. -/
inductive PyError where
  | typeError (msg : String)
deriving DecidableEq, Repr

/-- Prefix of the degraded answer on the max-iterations path. -/
def degradedAnswerHead : String :=
  "I was unable to complete the task within the allowed steps. Here\x27s what I found so far: "

/-- The `return` after the `for` loop of `_reason_and_act`:
`degradedAnswerHead + (thoughts[-1].observation if thoughts else "No progress made.")`.
When the final thought carries no observation the `str + None`
concatenation raises `TypeError`. -/
def degradedReturn (thoughts : List AgentThought) (max_iterations : Nat) :
    Except PyError AgentRunResult :=
  match thoughts.getLast? with
  | none =>
      .ok { status := .completed
            answer := some (degradedAnswerHead ++ "No progress made.")
            thoughts := thoughts
            iterations := max_iterations
            incomplete := true }
  | some t =>
      match t.observation with
      | some o =>
          .ok { status := .completed
                answer := some (degradedAnswerHead ++ o)
                thoughts := thoughts
                iterations := max_iterations
                incomplete := true }
      | none =>
          .error (.typeError
            "can only concatenate str (not \x22NoneType\x22) to str")

/-- The `current_thought` as appended on the final-answer path: its
observation is set to the raw action input. -/
def finalThought (r : ParsedResponse) (i : Nat) : AgentThought :=
  { step := i + 1, thought := r.thought, action := r.action, observation := r.action_input_raw }

/-- The `current_thought` as appended after a tool execution. -/
def toolThought (tools : ToolSet) (jsonOk : String → Bool)
    (r : ParsedResponse) (i : Nat) : AgentThought :=
  { step := i + 1, thought := r.thought, action := r.action, action_input := some (parseActionInput jsonOk r.action_input_raw), observation := some (execute_tool tools (r.action.getD "") (parseActionInput jsonOk r.action_input_raw)) }

/-- The `current_thought` as appended when the response carries no
truthy action: no tool runs and no observation is recorded. -/
def bareThought (r : ParsedResponse) (i : Nat) : AgentThought :=
  { step := i + 1, thought := r.thought, action := r.action }

/-- One traversal of the `for iteration in range(max_iterations)` loop of
`_reason_and_act`, from iteration `i` with `remaining` iterations left
and the thoughts accumulated so far. -/
def reasonStep (tools : ToolSet) (jsonOk : String → Bool)
    (responses : Nat → ParsedResponse) (max_iterations : Nat) :
    Nat → Nat → List AgentThought → Except PyError AgentRunResult
  | _, 0, thoughts => degradedReturn thoughts max_iterations
  | i, remaining + 1, thoughts =>
      let r := responses i
      if isFinalAnswer r.action then
        .ok { status := .completed
              answer := pyOr r.action_input_raw r.thought
              thoughts := thoughts ++ [finalThought r i]
              iterations := i + 1
              incomplete := false }
      else if pyTruthy r.action then
        reasonStep tools jsonOk responses max_iterations (i + 1) remaining
          (thoughts ++ [toolThought tools jsonOk r i])
      else
        reasonStep tools jsonOk responses max_iterations (i + 1) remaining
          (thoughts ++ [bareThought r i])

/-- `BaseAgent._reason_and_act`, driven by the per-iteration parsed
responses of the text-generation capability. -/
def reason_and_act (tools : ToolSet) (jsonOk : String → Bool)
    (max_iterations : Nat) (responses : Nat → ParsedResponse) :
    Except PyError AgentRunResult :=
  reasonStep tools jsonOk responses max_iterations 0 max_iterations []

/-! ### Multi-agent execution (`orchestrator.py`) -/

/-- The orchestrator-level `AgentResponse` (sources and the wall-clock
field omitted; `meta_error` is the `{"error": True}` marker of a
substituted failure response). -/
structure AgentResponse where
  answer : String
  thoughts : List AgentThought
  meta_error : Bool
deriving DecidableEq, Repr

/-- Keys of `self.agents`: only the three domain agents are constructed;
`AgentType.GENERAL` is never registered. -/
def registeredAgents : List AgentType := [.finance, .legal, .healthcare]

/-- `AgentOrchestrator.execute_multi_agent`: requested types without a
registered agent are skipped; a per-agent exception is isolated into a
substitute error entry under the same key.  `exec` abstracts the
underlying per-agent run (its raised exception carried as `str(e)`).
The Python dict is modelled as the association list in insertion order. -/
def execute_multi_agent (exec : AgentType → Except String AgentResponse)
    (agents : List AgentType) : List (String × AgentResponse) :=
  (agents.filter (fun a => registeredAgents.contains a)).map (fun a =>
    match exec a with
    | .ok r => (a.value, r)
    | .error e =>
        (a.value,
          { answer := "Error from " ++ a.value ++ " agent: " ++ e
            thoughts := []
            meta_error := true }))

/-! ### Evaluation harness (`evaluation/datasets.py`, `metrics.py`,
`evaluator.py`) -/

/-- `ExpectedDomain` enum of `datasets.py`. -/
inductive ExpectedDomain where
  | finance
  | legal
  | healthcare
  | multi
deriving DecidableEq, Repr, Inhabited

/-- The `.value` of each `ExpectedDomain` member. -/
def ExpectedDomain.value : ExpectedDomain → String
  | .finance => "finance"
  | .legal => "legal"
  | .healthcare => "healthcare"
  | .multi => "multi"

/-- `EvalCase` dataclass (difficulty/description tags omitted: they are
never read by the evaluator). -/
structure EvalCase where
  id : String
  query : String
  expected_domain : ExpectedDomain
  expected_tools : List String := []
  expected_keywords : List String := []
  requires_multi_agent : Bool := false
  secondary_domains : List ExpectedDomain := []
deriving DecidableEq, Repr, Inhabited

/-- `Verdict` enum of `metrics.py`; `mixed` models the member that the
source spells PARTIAL (that spelling is a Lean keyword). -/
inductive Verdict where
  | pass
  | fail
  | mixed
  | skip
deriving DecidableEq, Repr, Inhabited

/-- `RoutingResult` dataclass of `metrics.py`. -/
structure RoutingResult where
  case_id : String
  expected_domain : String
  actual_domain : String
  expected_multi_agent : Bool
  actual_multi_agent : Bool
  routing_confidence : ℚ
  correct : Bool
  multi_agent_correct : Bool
deriving DecidableEq, Repr

/-- `ToolUsageResult` dataclass of `metrics.py`. -/
structure ToolUsageResult where
  case_id : String
  expected_tools : List String
  actual_tools : List String
  tools_correct : Bool
  precision : ℚ
  recall_ : ℚ  -- source field name: recall (a Mathlib command name)
deriving DecidableEq, Repr

/-- `ResponseQualityResult` dataclass of `metrics.py`. -/
structure ResponseQualityResult where
  case_id : String
  expected_keywords : List String
  found_keywords : List String
  missing_keywords : List String
  keyword_coverage : ℚ
  response_length : Nat
  has_reasoning : Bool
deriving DecidableEq, Repr

/-- `LatencyResult` dataclass of `metrics.py`.  The millisecond fields
are wall-clock measurements; the embedding carries them structurally
(with value 0) because real time is outside the model. -/
structure LatencyResult where
  case_id : String
  total_ms : ℚ := 0
  routing_ms : ℚ := 0
  agent_ms : ℚ := 0
  tool_calls : Nat := 0
deriving DecidableEq, Repr

/-- `CaseResult` dataclass of `metrics.py`. -/
structure CaseResult where
  case_id : String
  query : String
  verdict : Verdict
  routing : Option RoutingResult := none
  tool_usage : Option ToolUsageResult := none
  response_quality : Option ResponseQualityResult := none
  latency : Option LatencyResult := none
  error : Option String := none
deriving DecidableEq, Repr, Inhabited

/-- `AgentEvaluator._evaluate_routing`. -/
def evaluate_routing (case : EvalCase) (decision : RoutingDecision) :
    RoutingResult :=
  let actual_domain := decision.primary_agent.value
  let correct : Bool :=
    if case.expected_domain = .multi then
      (case.secondary_domains.map ExpectedDomain.value).contains actual_domain
    else
      decide (actual_domain = case.expected_domain.value)
  { case_id := case.id
    expected_domain := case.expected_domain.value
    actual_domain := actual_domain
    expected_multi_agent := case.requires_multi_agent
    actual_multi_agent := decision.requires_multi_agent
    routing_confidence := decision.confidence
    correct := correct
    multi_agent_correct :=
      decide (decision.requires_multi_agent = case.requires_multi_agent) }

/-- `AgentEvaluator._evaluate_tool_usage`.  Python `set`s are modelled
as deduplicated lists (`List.dedup` keeps one copy of each element, so
its length is the set's cardinality). -/
def evaluate_tool_usage (case : EvalCase) (actual_tools : List String) :
    ToolUsageResult :=
  let expected_set := case.expected_tools.dedup
  let actual_set := actual_tools.dedup
  if expected_set.isEmpty then
    { case_id := case.id
      expected_tools := case.expected_tools
      actual_tools := actual_tools
      tools_correct := true
      precision := 1
      recall_ := 1 }
  else
    let correct_tools := expected_set.filter (fun t => actual_set.contains t)
    { case_id := case.id
      expected_tools := case.expected_tools
      actual_tools := actual_tools
      tools_correct := expected_set.all (fun t => actual_set.contains t)
      precision :=
        if actual_set.isEmpty then 0
        else (correct_tools.length : ℚ) / (actual_set.length : ℚ)
      recall_ :=
        if expected_set.isEmpty then 0
        else (correct_tools.length : ℚ) / (expected_set.length : ℚ) }

/-- `AgentEvaluator._evaluate_response_quality`. -/
def evaluate_response_quality (case : EvalCase) (answer : String)
    (thoughts : List AgentThought) : ResponseQualityResult :=
  let answer_lower := pyLower answer
  let found := case.expected_keywords.filter
    (fun kw => strHasSub answer_lower (pyLower kw))
  let missing := case.expected_keywords.filter
    (fun kw => ¬ strHasSub answer_lower (pyLower kw))
  { case_id := case.id
    expected_keywords := case.expected_keywords
    found_keywords := found
    missing_keywords := missing
    keyword_coverage :=
      if case.expected_keywords.isEmpty then 1
      else (found.length : ℚ) / (case.expected_keywords.length : ℚ)
    response_length := answer.length
    has_reasoning := decide (0 < thoughts.length) }

/-- `AgentEvaluator._extract_tools_from_thoughts`: ordered distinct
truthy actions other than the final-answer sentinel. -/
def extract_tools_from_thoughts (thoughts : List AgentThought) :
    List String :=
  thoughts.foldl (fun tools t =>
    match t.action with
    | none => tools
    | some action =>
        if action ≠ "" ∧ action ≠ "FINAL_ANSWER" ∧ action ∉ tools then
          tools ++ [action]
        else tools) []

/-- `AgentEvaluator._determine_verdict`. -/
def determine_verdict (routing : RoutingResult)
    (tool_usage : ToolUsageResult)
    (response_quality : ResponseQualityResult) : Verdict :=
  if ¬ routing.correct then .fail
  else if routing.correct ∧ tool_usage.tools_correct
      ∧ (1/2 : ℚ) ≤ response_quality.keyword_coverage then .pass
  else if routing.correct ∧ (¬ tool_usage.tools_correct
      ∨ response_quality.keyword_coverage < (1/2 : ℚ)) then .mixed
  else .fail

/-- An exception observed at an `await` boundary of `_evaluate_case`:
an `asyncio.TimeoutError` from `wait_for`, or any other exception
(carried as its `str(e)` rendering). -/
inductive PyExc where
  | timeoutError
  | exc (msg : String)
deriving DecidableEq, Repr

/-- The orchestrator's observable behaviour for one case: the outcome of
the route call and of the (multi- or single-) agent execution call.
These calls are the only suspension points of `_evaluate_case`. -/
structure CaseEnv where
  route : Except PyExc RoutingDecision
  exec_multi : Except PyExc (List (String × AgentResponse))
  exec_single : Except PyExc AgentResponse
deriving Repr

/-- The `CaseResult` of the `except asyncio.TimeoutError` branch of
`_evaluate_case` (note: it attaches a latency sub-result). -/
def timeoutCaseResult (case : EvalCase) (timeout_s : ℚ) : CaseResult :=
  { case_id := case.id
    query := case.query
    verdict := .fail
    error := some ("Timeout after " ++ toString timeout_s ++ "s")
    latency := some { case_id := case.id } }

/-- The `CaseResult` of the `except Exception` branch of
`_evaluate_case` (note: it attaches a latency sub-result). -/
def excCaseResult (case : EvalCase) (msg : String) : CaseResult :=
  { case_id := case.id
    query := case.query
    verdict := .fail
    error := some msg
    latency := some { case_id := case.id } }

/-- Step 2 of `_evaluate_case`: run the agents per the decision and
reduce their responses to the combined answer and thought list.  The
multi-agent branch joins the answers with spaces and concatenates the
thought lists, exactly as the source does (its `hasattr` guards are
always true for `AgentResponse`). -/
def agent_phase (env : CaseEnv) (decision : RoutingDecision) :
    Except PyExc (String × List AgentThought) :=
  if decision.requires_multi_agent then
    env.exec_multi.map (fun responses =>
      (String.intercalate " " (responses.map (fun r => r.2.answer)),
       (responses.map (fun r => r.2.thoughts)).flatten))
  else
    env.exec_single.map (fun r => (r.answer, r.thoughts))

/-- Steps 3-5 of `_evaluate_case`: the fully scored `CaseResult` built
once both the route call and the agent execution have succeeded. -/
def scored_case_result (case : EvalCase) (decision : RoutingDecision)
    (ca : String × List AgentThought) : CaseResult :=
  let routing := evaluate_routing case decision
  let actual_tools := extract_tools_from_thoughts ca.2
  let tool_usage := evaluate_tool_usage case actual_tools
  let response_quality := evaluate_response_quality case ca.1 ca.2
  { case_id := case.id
    query := case.query
    verdict := determine_verdict routing tool_usage response_quality
    routing := some routing
    tool_usage := some tool_usage
    response_quality := some response_quality
    latency := some { case_id := case.id
                      tool_calls := actual_tools.length }
    error := none }

/-- `AgentEvaluator._evaluate_case`. -/
def evaluate_case (env : CaseEnv) (timeout_s : ℚ) (case : EvalCase) :
    CaseResult :=
  match env.route with
  | .error .timeoutError => timeoutCaseResult case timeout_s
  | .error (.exc m) => excCaseResult case m
  | .ok decision =>
      match agent_phase env decision with
      | .error .timeoutError => timeoutCaseResult case timeout_s
      | .error (.exc m) => excCaseResult case m
      | .ok ca => scored_case_result case decision ca

/-- The result `AgentEvaluator.evaluate` records for one gathered case
outcome: the `.error` alternative is the `gather(...,
return_exceptions=True)` path in which the case task itself escaped
with an exception, which `evaluate` wraps into a bare failed
`CaseResult`; otherwise the case was evaluated against the
orchestrator behaviour `e`. -/
def case_outcome (outcome : Except String CaseEnv) (timeout_s : ℚ)
    (case : EvalCase) : CaseResult :=
  match outcome with
  | .error m =>
      { case_id := case.id
        query := case.query
        verdict := .fail
        error := some m }
  | .ok e => evaluate_case e timeout_s case

/-- `AgentEvaluator.evaluate`: one result per dataset case, in dataset
order; `env i` is the behaviour seen by case `i`. -/
def evaluate (env : Nat → Except String CaseEnv) (timeout_s : ℚ)
    (cases : List EvalCase) : List CaseResult :=
  cases.enum.map (fun p => case_outcome (env p.1) timeout_s p.2)

/-! ### Metrics aggregation (`metrics.py`) -/

/-- `EvaluationMetrics.error_count`. -/
def error_count (results : List CaseResult) : Nat :=
  (results.filter (fun r => r.error.isSome)).length

/-- `EvaluationMetrics.pass_count`. -/
def pass_count (results : List CaseResult) : Nat :=
  (results.filter (fun r => r.verdict = Verdict.pass)).length

/-- `EvaluationMetrics.fail_count`. -/
def fail_count (results : List CaseResult) : Nat :=
  (results.filter (fun r => r.verdict = Verdict.fail)).length

/-- `EvaluationMetrics.pass_rate`. -/
def pass_rate (results : List CaseResult) : ℚ :=
  if results.isEmpty then 0
  else (pass_count results : ℚ) / (results.length : ℚ)

/-- `EvaluationMetrics.latency_results`. -/
def latency_results (results : List CaseResult) : List LatencyResult :=
  results.filterMap (fun r => r.latency)

/-- `EvaluationMetrics._percentile_latency`.  `int(x)` on the
non-negative float `len * percentile` is `⌊x⌋`; the percentile
arguments used by the source (0.50 / 0.95 / 0.99) are modelled exactly
in `ℚ`. -/
def percentile_latency (results : List CaseResult) (percentile : ℚ) : ℚ :=
  let ls := latency_results results
  if ls.isEmpty then 0
  else
    let sorted_latencies :=
      (ls.map (fun r => r.total_ms)).mergeSort (fun a b => decide (a ≤ b))
    let idx := min (Int.toNat ⌊(ls.length : ℚ) * percentile⌋)
      (ls.length - 1)
    sorted_latencies.getD idx 0

/-- `EvaluationMetrics.p50_latency_ms`. -/
def p50_latency_ms (results : List CaseResult) : ℚ :=
  percentile_latency results (50/100)

/-- `EvaluationMetrics.p95_latency_ms`. -/
def p95_latency_ms (results : List CaseResult) : ℚ :=
  percentile_latency results (95/100)

/-- `EvaluationMetrics.p99_latency_ms`. -/
def p99_latency_ms (results : List CaseResult) : ℚ :=
  percentile_latency results (99/100)

/-! ### Concrete instances used by the theorems -/

/-- An empty tool registry. -/
def tools0 : ToolSet := fun _ => none

/-- A JSON predicate that accepts nothing. -/
def jsonOk0 : String → Bool := fun _ => false

/-- A response stream that only ever produces a THOUGHT field: the
ACTION and ACTION_INPUT labels are missing from every generated text
(e.g. the raw response "THOUGHT: thinking"). -/
def respThoughtOnly : Nat → ParsedResponse :=
  fun _ => { thought := some "thinking" }

/-- A response stream that immediately selects the final-answer
sentinel. -/
def respFinal : Nat → ParsedResponse :=
  fun _ => { thought := some "t", action := some "FINAL_ANSWER",
             action_input_raw := some "42" }

/-- A plain successful agent response. -/
def respFine : AgentResponse :=
  { answer := "fine", thoughts := [], meta_error := false }

/-- A finance-expecting evaluation case with no tool or keyword
expectations. -/
def caseA : EvalCase :=
  { id := "case_a", query := "qa", expected_domain := .finance }

/-- A second such case. -/
def caseB : EvalCase :=
  { id := "case_b", query := "qb", expected_domain := .finance }

/-- Orchestrator behaviour whose route call times out. -/
def envTimeout : CaseEnv :=
  { route := .error .timeoutError, exec_multi := .ok [],
    exec_single := .ok respFine }

/-- A single-agent routing decision to finance. -/
def okDecisionFin : RoutingDecision :=
  { primary_agent := .finance, secondary_agents := [], confidence := 1,
    reasoning := "", requires_multi_agent := false }

/-- Orchestrator behaviour whose route call raises. -/
def envBoom : CaseEnv :=
  { route := .error (.exc "boom"), exec_multi := .ok [],
    exec_single := .ok respFine }

/-- Fully successful orchestrator behaviour. -/
def envOk : CaseEnv :=
  { route := .ok okDecisionFin, exec_multi := .ok [],
    exec_single := .ok respFine }

/-- A two-case batch environment: the first case's route call raises,
the second case succeeds. -/
def envPair : Nat → Except String CaseEnv :=
  fun i => if i = 0 then .ok envBoom else .ok envOk

/-- Orchestrator behaviour that routes fine but whose agent execution
raises. -/
def envAgentBoom : CaseEnv :=
  { route := .ok okDecisionFin, exec_multi := .ok [],
    exec_single := .error (.exc "agent boom") }

/-- A case result carrying only a latency measurement. -/
def latCase (v : ℚ) : CaseResult :=
  { case_id := "lat", query := "", verdict := .pass,
    latency := some { case_id := "lat", total_ms := v } }

/-- Ten case results with latencies 100, 200, ..., 1000 ms. -/
def tenLatencies : List CaseResult :=
  [latCase 100, latCase 200, latCase 300, latCase 400, latCase 500,
   latCase 600, latCase 700, latCase 800, latCase 900, latCase 1000]

/-- An execution in which every agent succeeds. -/
def execOk : AgentType → Except String AgentResponse := fun _ => .ok respFine

/-! ### Router lemmas -/

/-- The confidence formula also covers the zero branch:
`min 0.95 (0.5 + 0 * 0.1) = 0.5`. -/
lemma routeConfidence_formula (q : String) :
    routeConfidence q = min (95/100) (1/2 + (maxScore q : ℚ) * (1/10)) := by
  unfold routeConfidence
  split
  · rename_i h
    rw [h]
    norm_num
  · rfl

lemma maxScore_unfold (q : String) :
    maxScore q = max (max (max 0 (domainScore (pyLower q) financeKeywords))
      (domainScore (pyLower q) legalKeywords))
      (domainScore (pyLower q) healthcareKeywords) := rfl

/-- Python `max(scores, key=scores.get)` agrees with "first key whose
value attains the maximum" on a three-entry dict. -/
lemma argmax3_find (x y z : AgentType) (a b c M : Nat)
    (hM : M = max (max (max 0 a) b) c) (h : M ≠ 0) :
    List.find? (fun p => p.2 == M) [(x, a), (y, b), (z, c)]
      = some (argmaxFirst [(x, a), (y, b), (z, c)] .general, M) := by
  unfold argmaxFirst
  simp only [List.foldl]
  by_cases h1 : a < b
  · rw [show (if a < b then (y, b) else (x, a)) = (y, b) from if_pos h1]
    by_cases h2 : b < c
    · rw [show (if (y, b).2 < c then (z, c) else (y, b)) = (z, c) from if_pos h2]
      rw [List.find?_cons_of_neg _ (by simp; omega),
        List.find?_cons_of_neg _ (by simp; omega),
        List.find?_cons_of_pos _ (by simp; omega)]
      simp; omega
    · rw [show (if (y, b).2 < c then (z, c) else (y, b)) = (y, b) from if_neg h2]
      rw [List.find?_cons_of_neg _ (by simp; omega),
        List.find?_cons_of_pos _ (by simp; omega)]
      simp; omega
  · rw [show (if a < b then (y, b) else (x, a)) = (x, a) from if_neg h1]
    by_cases h3 : a < c
    · rw [show (if (x, a).2 < c then (z, c) else (x, a)) = (z, c) from if_pos h3]
      rw [List.find?_cons_of_neg _ (by simp; omega),
        List.find?_cons_of_neg _ (by simp; omega),
        List.find?_cons_of_pos _ (by simp; omega)]
      simp; omega
    · rw [show (if (x, a).2 < c then (z, c) else (x, a)) = (x, a) from if_neg h3]
      rw [List.find?_cons_of_pos _ (by simp; omega)]
      simp; omega

lemma primary_find_first (q : String) (h : maxScore q ≠ 0) :
    (scoreList q).find? (fun p => p.2 == maxScore q)
      = some (routePrimary q, maxScore q) := by
  unfold routePrimary
  rw [if_neg h]
  exact argmax3_find _ _ _ _ _ _ _ (maxScore_unfold q) h

set_option maxHeartbeats 1000000 in
/-- C1: the router's decision is a function of the keyword-match scores
alone: a zero maximum yields the generic fallback with confidence
exactly 0.5; otherwise the primary is the first domain (in table order)
attaining the maximal score and the confidence is
`min 0.95 (0.5 + 0.1 * max_score)`; confidence is monotonically
non-decreasing in the maximal score and never exceeds 0.95. -/
theorem C1_router_decision_from_scores (q : String) :
    (maxScore q = 0 →
      (analyze_and_route q).primary_agent = AgentType.general ∧
      (analyze_and_route q).confidence = 1/2) ∧
    (maxScore q ≠ 0 →
      (scoreList q).find? (fun p => p.2 == maxScore q)
        = some ((analyze_and_route q).primary_agent, maxScore q) ∧
      (analyze_and_route q).confidence
        = min (95/100) (1/2 + (maxScore q : ℚ) * (1/10))) ∧
    (∀ q2 : String, maxScore q ≤ maxScore q2 →
      (analyze_and_route q).confidence ≤ (analyze_and_route q2).confidence) ∧
    (analyze_and_route q).confidence ≤ 95/100 := by
  refine ⟨fun h => ⟨?_, ?_⟩, fun h => ⟨?_, ?_⟩, fun q2 h => ?_, ?_⟩
  · show routePrimary q = AgentType.general
    unfold routePrimary
    rw [if_pos h]
  · show routeConfidence q = 1/2
    unfold routeConfidence
    rw [if_pos h]
  · exact primary_find_first q h
  · exact routeConfidence_formula q
  · show routeConfidence q ≤ routeConfidence q2
    rw [routeConfidence_formula, routeConfidence_formula]
    have hc : ((maxScore q : ℚ)) ≤ (maxScore q2 : ℚ) := by exact_mod_cast h
    apply min_le_min le_rfl
    linarith
  · show routeConfidence q ≤ 95/100
    rw [routeConfidence_formula]
    exact min_le_left _ _

set_option maxHeartbeats 4000000 in
/-- Witness for C1 at concrete queries: a finance query takes the
arg-max branch, a keyword-free query takes the fallback branch. -/
theorem C1_router_decision_from_scores_witness :
    ((scoreList "What is the current P/E ratio for AAPL?").find?
        (fun p => p.2 == maxScore "What is the current P/E ratio for AAPL?")
      = some ((analyze_and_route "What is the current P/E ratio for AAPL?").primary_agent,
          maxScore "What is the current P/E ratio for AAPL?")) ∧
    (analyze_and_route "hello world").primary_agent = AgentType.general :=
  ⟨((C1_router_decision_from_scores _).2.1 (by decide)).1,
   ((C1_router_decision_from_scores _).1 (by decide)).1⟩

/-- Distinct domains key the score dict. -/
lemma scoreList_key_inj (q : String) :
    ∀ p p2, p ∈ scoreList q → p2 ∈ scoreList q → p.1 = p2.1 → p = p2 := by
  intro p p2 hp hp2 h
  simp only [scoreList, domainKeywords, List.map_cons, List.map_nil,
    List.mem_cons, List.not_mem_nil, or_false] at hp hp2
  rcases hp with rfl | rfl | rfl <;> rcases hp2 with rfl | rfl | rfl <;>
    simp_all

/-- Membership in the secondary list is exactly the loop condition. -/
lemma mem_secondary_iff (q : String) (p : AgentType × Nat)
    (hp : p ∈ scoreList q) :
    p.1 ∈ routeSecondary q ↔ (p.1 ≠ routePrimary q ∧ 0 < p.2) := by
  unfold routeSecondary
  rw [List.mem_map]
  constructor
  · rintro ⟨p2, hp2, hfst⟩
    have hmem := (List.mem_filter.mp hp2).1
    have hpred := (List.mem_filter.mp hp2).2
    simp only [Bool.and_eq_true, bne_iff_ne, decide_eq_true_eq] at hpred
    have : p2 = p := scoreList_key_inj q p2 p hmem hp hfst
    subst this
    exact ⟨hpred.1, hpred.2⟩
  · rintro ⟨hne, hpos⟩
    refine ⟨p, List.mem_filter.mpr ⟨hp, ?_⟩, rfl⟩
    simp only [Bool.and_eq_true, bne_iff_ne, decide_eq_true_eq]
    exact ⟨hne, hpos⟩

/-- `0.5 * max ≤ score` in exact arithmetic is `max ≤ 2 * score`. -/
lemma halfmax_iff (m s : Nat) :
    ((1 : ℚ)/2 * (m : ℚ) ≤ (s : ℚ)) ↔ (m ≤ 2 * s) := by
  rw [show (1 : ℚ)/2 * (m : ℚ) = (m : ℚ)/2 from by ring,
    div_le_iff₀ (by norm_num : (0 : ℚ) < 2)]
  constructor
  · intro h
    have h2 : m ≤ s * 2 := by exact_mod_cast h
    omega
  · intro h
    have h2 : m ≤ s * 2 := by omega
    exact_mod_cast h2

/-- C2 counterexample: `run` forced with a duplicated agent list builds
a decision whose primary re-appears in its own secondaries. -/
theorem C2_counterexample_forced_duplicate :
    (runRouting "q" [AgentType.finance, AgentType.finance]).primary_agent
      ∈ (runRouting "q" [AgentType.finance, AgentType.finance]).secondary_agents := by
  decide

/-- C2 (amended): a routed decision never repeats its primary among its
secondaries; a forced decision satisfies this exactly when the first
forced agent does not re-occur in the rest of the forced list (the
source copies `force_agents[1:]` verbatim, so a duplicated head lands in
the secondaries). -/
theorem C2_primary_not_in_secondaries :
    (∀ q : String, (analyze_and_route q).primary_agent
        ∉ (analyze_and_route q).secondary_agents) ∧
    (∀ (q : String) (a : AgentType) (rest : List AgentType), a ∉ rest →
      (runRouting q (a :: rest)).primary_agent
        ∉ (runRouting q (a :: rest)).secondary_agents) := by
  constructor
  · intro q hmem
    have : (analyze_and_route q).secondary_agents = routeSecondary q := rfl
    rw [this] at hmem
    unfold routeSecondary at hmem
    rw [List.mem_map] at hmem
    obtain ⟨p, hp, hfst⟩ := hmem
    have hpred := (List.mem_filter.mp hp).2
    simp only [Bool.and_eq_true, bne_iff_ne, decide_eq_true_eq] at hpred
    exact hpred.1 hfst
  · intro q a rest h
    exact h

/-- Witness for C2 at a duplicate-free forced list. -/
theorem C2_primary_not_in_secondaries_witness :
    (runRouting "q" [AgentType.finance, AgentType.legal]).primary_agent
      ∉ (runRouting "q" [AgentType.finance, AgentType.legal]).secondary_agents :=
  C2_primary_not_in_secondaries.2 "q" AgentType.finance [AgentType.legal]
    (by decide)

set_option maxHeartbeats 4000000 in
/-- C3: a domain is a secondary candidate exactly when it is not the
primary and scores positively; the multi-agent flag is set exactly when
some such domain scores at least half the maximal score; and on the
cross-domain breach query all three domains appear among
primary-plus-secondaries with the flag set. -/
theorem C3_secondary_and_multi_rule :
    (∀ q : String,
      (∀ p ∈ scoreList q,
        (p.1 ∈ (analyze_and_route q).secondary_agents ↔
          p.1 ≠ (analyze_and_route q).primary_agent ∧ 0 < p.2)) ∧
      ((analyze_and_route q).requires_multi_agent = true ↔
        ∃ p ∈ scoreList q, p.1 ≠ (analyze_and_route q).primary_agent ∧
          0 < p.2 ∧ (1 : ℚ)/2 * (maxScore q : ℚ) ≤ (p.2 : ℚ))) ∧
    ((analyze_and_route
        "What are the legal and financial implications of a healthcare data breach?").requires_multi_agent
      = true ∧
     ∀ a ∈ [AgentType.finance, AgentType.legal, AgentType.healthcare],
       a = (analyze_and_route
          "What are the legal and financial implications of a healthcare data breach?").primary_agent ∨
       a ∈ (analyze_and_route
          "What are the legal and financial implications of a healthcare data breach?").secondary_agents) := by
  constructor
  · intro q
    constructor
    · intro p hp
      exact mem_secondary_iff q p hp
    · show routeRequiresMulti q = true ↔ _
      unfold routeRequiresMulti
      rw [List.any_eq_true]
      constructor
      · rintro ⟨p, hp, hpred⟩
        simp only [Bool.and_eq_true, bne_iff_ne, decide_eq_true_eq] at hpred
        exact ⟨p, hp, hpred.1.1, hpred.1.2, (halfmax_iff _ _).mpr hpred.2⟩
      · rintro ⟨p, hp, h1, h2, h3⟩
        refine ⟨p, hp, ?_⟩
        simp only [Bool.and_eq_true, bne_iff_ne, decide_eq_true_eq]
        exact ⟨⟨h1, h2⟩, (halfmax_iff _ _).mp h3⟩
  · exact ⟨by decide, by decide⟩

/-- Witness for C3: on the query "risk", finance scores 1, is primary,
and is therefore not its own secondary. -/
theorem C3_secondary_and_multi_rule_witness :
    ((AgentType.finance, 1).1
        ∈ (analyze_and_route "risk").secondary_agents ↔
      (AgentType.finance, 1).1
          ≠ (analyze_and_route "risk").primary_agent ∧ 0 < (AgentType.finance, 1).2) :=
  (C3_secondary_and_multi_rule.1 "risk").1 (AgentType.finance, 1) (by decide)

/-! ### Reasoning-loop theorems -/

/-- C4: evaluation of the loop at the failing input.  A run whose single
generated response lacks the ACTION label reaches the max-iterations
return with a final thought carrying no observation, and the
`str + None` concatenation there raises `TypeError` out of the loop —
contradicting the specified never-raise contract for parse shortfalls. -/
theorem C4_loop_raises_on_missing_action :
    (respThoughtOnly 0).action = none ∧
    reason_and_act tools0 jsonOk0 1 respThoughtOnly
      = .error (.typeError
          "can only concatenate str (not \x22NoneType\x22) to str") :=
  ⟨rfl, rfl⟩

/-- C5 counterexample: with a two-iteration budget and the sentinel
never selected, the loop raises instead of returning an
incomplete-flagged result. -/
theorem C5_counterexample_budget_path_raises :
    isFinalAnswer (respThoughtOnly 0).action = false ∧
    isFinalAnswer (respThoughtOnly 1).action = false ∧
    reason_and_act tools0 jsonOk0 2 respThoughtOnly
      = .error (.typeError
          "can only concatenate str (not \x22NoneType\x22) to str") :=
  ⟨rfl, rfl, rfl⟩

/-- When the sentinel never fires and the final surviving iteration
performed an action (so its thought carries an observation), the loop
returns an incomplete result whose trace extends the accumulator by one
entry per remaining iteration. -/
lemma reasonStep_no_final_ok (tools : ToolSet) (jsonOk : String → Bool)
    (responses : Nat → ParsedResponse) (maxIter : Nat) :
    ∀ (n i : Nat) (acc : List AgentThought),
      (∀ j, j < n → isFinalAnswer (responses (i + j)).action = false) →
      1 ≤ n → pyTruthy (responses (i + n - 1)).action = true →
      ∃ r, reasonStep tools jsonOk responses maxIter i n acc = .ok r ∧
        r.incomplete = true ∧ r.thoughts.length = acc.length + n := by
  intro n
  induction n with
  | zero => intro i acc _ h1 _; omega
  | succ m ih =>
      intro i acc hnf _ htr
      have h0 : isFinalAnswer (responses i).action = false := by
        have := hnf 0 (by omega)
        simpa using this
      simp only [reasonStep]
      rw [if_neg (by simp [h0])]
      by_cases hact : pyTruthy (responses i).action = true
      · rw [if_pos hact]
        cases m with
        | zero =>
            simp only [reasonStep, degradedReturn, List.getLast?_concat,
              toolThought]
            refine ⟨_, rfl, rfl, by simp⟩
        | succ k =>
            obtain ⟨r, heq, hinc, hlen⟩ := ih (i + 1)
              (acc ++ [toolThought tools jsonOk (responses i) i])
              (fun j hj => by
                have := hnf (j + 1) (by omega)
                have harith : i + (j + 1) = i + 1 + j := by omega
                rwa [harith] at this)
              (by omega)
              (by
                have harith : i + 1 + (k + 1) - 1 = i + (k + 1 + 1) - 1 := by
                  omega
                rw [harith]; exact htr)
            refine ⟨r, heq, hinc, ?_⟩
            rw [hlen]
            simp
            omega
      · have hm : m ≠ 0 := by
          intro hm0
          subst hm0
          simp only [Nat.add_sub_cancel] at htr
          exact hact htr
        rw [if_neg hact]
        cases m with
        | zero => exact absurd rfl hm
        | succ k =>
            obtain ⟨r, heq, hinc, hlen⟩ := ih (i + 1)
              (acc ++ [bareThought (responses i) i])
              (fun j hj => by
                have := hnf (j + 1) (by omega)
                have harith : i + (j + 1) = i + 1 + j := by omega
                rwa [harith] at this)
              (by omega)
              (by
                have harith : i + 1 + (k + 1) - 1 = i + (k + 1 + 1) - 1 := by
                  omega
                rw [harith]; exact htr)
            refine ⟨r, heq, hinc, ?_⟩
            rw [hlen]
            simp
            omega

/-- C5 (amended): a sentinel on step 1 yields a one-entry trace, state
Completed, and the answer from the action input with fallback to the
thought when the input is absent (falsy); and when the sentinel never
fires within the budget of N iterations, the loop returns an
incomplete-flagged result with trace length ≤ N provided the final
iteration performed an action (with no action on the final iteration
the degraded-answer concatenation raises instead, see the
counterexample). -/
theorem C5_trace_shape (tools : ToolSet) (jsonOk : String → Bool)
    (N : Nat) (responses : Nat → ParsedResponse) :
    (1 ≤ N → isFinalAnswer (responses 0).action = true →
      ((reason_and_act tools jsonOk N responses).map
          (fun r => r.thoughts.length) = .ok 1) ∧
      ((reason_and_act tools jsonOk N responses).map
          (fun r => r.status) = .ok AgentStatus.completed) ∧
      (pyTruthy (responses 0).action_input_raw = true →
        (reason_and_act tools jsonOk N responses).map
          (fun r => r.answer) = .ok (responses 0).action_input_raw) ∧
      (pyTruthy (responses 0).action_input_raw = false →
        (reason_and_act tools jsonOk N responses).map
          (fun r => r.answer) = .ok (responses 0).thought)) ∧
    ((∀ i, i < N → isFinalAnswer (responses i).action = false) →
      (N = 0 ∨ pyTruthy (responses (N - 1)).action = true) →
      ((reason_and_act tools jsonOk N responses).map
          (fun r => r.incomplete) = .ok true) ∧
      ((reason_and_act tools jsonOk N responses).map
          (fun r => decide (r.thoughts.length ≤ N)) = .ok true)) := by
  constructor
  · intro hN hfin
    obtain ⟨M, rfl⟩ : ∃ M, N = M + 1 := ⟨N - 1, by omega⟩
    unfold reason_and_act
    simp only [reasonStep, hfin, if_true]
    refine ⟨by simp [Except.map], by simp [Except.map], ?_, ?_⟩
    · intro htr
      simp [Except.map, pyOr, htr]
    · intro htr
      simp [Except.map, pyOr, htr]
  · intro hnf hlast
    cases N with
    | zero =>
        simp [reason_and_act, reasonStep, degradedReturn, Except.map]
    | succ M =>
        have htr : pyTruthy (responses (M + 1 - 1)).action = true := by
          rcases hlast with h | h
          · omega
          · exact h
        obtain ⟨r, heq, hinc, hlen⟩ := reasonStep_no_final_ok tools jsonOk
          responses (M + 1) (M + 1) 0 []
          (fun j hj => by simpa using hnf j hj) (by omega)
          (by rw [Nat.zero_add]; exact htr)
        rw [reason_and_act, heq]
        constructor
        · simp [Except.map, hinc]
        · simp only [Except.map]
          simp at hlen
          simp [hlen]

/-- Witness for C5 at the immediate-sentinel stream. -/
theorem C5_trace_shape_witness :
    ((reason_and_act tools0 jsonOk0 1 respFinal).map
        (fun r => r.thoughts.length) = .ok 1) ∧
    ((reason_and_act tools0 jsonOk0 1 respFinal).map
        (fun r => r.status) = .ok AgentStatus.completed) ∧
    ((reason_and_act tools0 jsonOk0 1 respFinal).map
        (fun r => r.answer) = .ok (respFinal 0).action_input_raw) :=
  ⟨((C5_trace_shape tools0 jsonOk0 1 respFinal).1 (by decide) (by decide)).1,
   ((C5_trace_shape tools0 jsonOk0 1 respFinal).1 (by decide) (by decide)).2.1,
   ((C5_trace_shape tools0 jsonOk0 1 respFinal).1 (by decide)
      (by decide)).2.2.1 (by decide)⟩

/-! ### Evaluator theorems -/

/-- C6: the verdict rule — fail exactly when routing is incorrect; pass
exactly when routing, tools and the 0.5 keyword-coverage threshold all
hold; partial (the `mixed` member here) in every remaining case with
correct routing. -/
theorem C6_verdict_rule (routing : RoutingResult)
    (tool_usage : ToolUsageResult)
    (response_quality : ResponseQualityResult) :
    (determine_verdict routing tool_usage response_quality = .fail ↔
      routing.correct = false) ∧
    (determine_verdict routing tool_usage response_quality = .pass ↔
      routing.correct = true ∧ tool_usage.tools_correct = true ∧
        (1/2 : ℚ) ≤ response_quality.keyword_coverage) ∧
    (determine_verdict routing tool_usage response_quality = .mixed ↔
      routing.correct = true ∧ (tool_usage.tools_correct = false ∨
        response_quality.keyword_coverage < (1/2 : ℚ))) := by
  unfold determine_verdict
  by_cases hr : routing.correct = true <;>
    by_cases ht : tool_usage.tools_correct = true <;>
      rcases le_or_lt (1/2 : ℚ) response_quality.keyword_coverage
        with hq | hq <;>
    split_ifs <;>
    simp_all <;>
    exact absurd hq (by linarith)

/-- C7 counterexample: a per-case timeout populates `error` and a
latency sub-result on the same `CaseResult`. -/
theorem C7_counterexample_timeout_latency :
    (evaluate_case envTimeout 60 caseA).error.isSome = true ∧
    (evaluate_case envTimeout 60 caseA).latency.isSome = true :=
  ⟨rfl, rfl⟩

/-- C7 (amended): whenever a CaseResult's `error` is populated, the
routing, tool-usage and response-quality sub-results are absent; the
latency sub-result is also absent in the batch-level exception wrapper,
but the per-case timeout and exception branches do attach one. -/
theorem C7_error_excludes_scoring :
    (∀ (env : CaseEnv) (t : ℚ) (c : EvalCase),
      (evaluate_case env t c).error.isSome = true →
      (evaluate_case env t c).routing = none ∧
      (evaluate_case env t c).tool_usage = none ∧
      (evaluate_case env t c).response_quality = none) ∧
    (∀ (m : String) (t : ℚ) (c : EvalCase),
      (case_outcome (.error m) t c).error = some m ∧
      (case_outcome (.error m) t c).routing = none ∧
      (case_outcome (.error m) t c).tool_usage = none ∧
      (case_outcome (.error m) t c).response_quality = none ∧
      (case_outcome (.error m) t c).latency = none) := by
  constructor
  · intro env t c herr
    unfold evaluate_case at herr ⊢
    rcases hroute : env.route with e | d
    · rcases e with _ | m
      · exact ⟨rfl, rfl, rfl⟩
      · exact ⟨rfl, rfl, rfl⟩
    · rcases hex : agent_phase env d with e2 | ca
      · rcases e2 with _ | m
        · simp only [hex]
          exact ⟨rfl, rfl, rfl⟩
        · simp only [hex]
          exact ⟨rfl, rfl, rfl⟩
      · simp [hroute, hex, scored_case_result] at herr
  · intro m t c
    exact ⟨rfl, rfl, rfl, rfl, rfl⟩

/-- Witness for C7 at the timing-out environment. -/
theorem C7_error_excludes_scoring_witness :
    (evaluate_case envTimeout 60 caseA).routing = none ∧
    (evaluate_case envTimeout 60 caseA).tool_usage = none ∧
    (evaluate_case envTimeout 60 caseA).response_quality = none :=
  C7_error_excludes_scoring.1 envTimeout 60 caseA rfl

/-- The batch produces exactly one result per case. -/
lemma evaluate_length (env : Nat → Except String CaseEnv) (t : ℚ)
    (cases : List EvalCase) :
    (evaluate env t cases).length = cases.length := by
  simp [evaluate]

/-- The batch result at position `i` is the outcome of case `i` alone. -/
lemma evaluate_getD (env : Nat → Except String CaseEnv) (t : ℚ)
    (cases : List EvalCase) (i : Nat) (h : i < cases.length) :
    (evaluate env t cases).getD i default
      = case_outcome (env i) t (cases.getD i default) := by
  have h1 : i < (evaluate env t cases).length := by
    rw [evaluate_length]; exact h
  rw [List.getD_eq_getElem _ _ h1, List.getD_eq_getElem _ _ h]
  unfold evaluate
  rw [List.getElem_map, List.getElem_enum]

/-- Once the route call has produced a decision, `_evaluate_case` is
determined by the outcome of the agent-execution phase. -/
lemma evaluate_case_route_ok (env : CaseEnv) (t : ℚ) (c : EvalCase)
    (d : RoutingDecision) (h : env.route = .ok d) :
    evaluate_case env t c
      = match agent_phase env d with
        | .error .timeoutError => timeoutCaseResult c t
        | .error (.exc m) => excCaseResult c m
        | .ok ca => scored_case_result c d ca := by
  unfold evaluate_case
  rw [h]

/-- C8: any uncaught exception or per-case timeout while running one
case — at the route call or during the agent-execution phase — is
captured as that case's own failed, error-carrying result; the batch
always yields one result per case; and in the concrete two-case batch
where the first route raises, the report has error_count 1, pass_rate
1/2, and a clean passing result for the sibling. -/
theorem C8_case_isolation :
    (∀ (env : Nat → Except String CaseEnv) (t : ℚ)
        (cases : List EvalCase),
      (evaluate env t cases).length = cases.length) ∧
    (∀ (env : Nat → Except String CaseEnv) (t : ℚ) (cases : List EvalCase)
        (i : Nat) (e : CaseEnv) (m : String),
      i < cases.length → env i = .ok e → e.route = .error (.exc m) →
      ((evaluate env t cases).getD i default).verdict = .fail ∧
      ((evaluate env t cases).getD i default).error = some m) ∧
    (∀ (env : Nat → Except String CaseEnv) (t : ℚ) (cases : List EvalCase)
        (i : Nat) (e : CaseEnv),
      i < cases.length → env i = .ok e → e.route = .error .timeoutError →
      ((evaluate env t cases).getD i default).verdict = .fail ∧
      ((evaluate env t cases).getD i default).error.isSome = true) ∧
    (∀ (env : Nat → Except String CaseEnv) (t : ℚ) (cases : List EvalCase)
        (i : Nat) (e : CaseEnv) (d : RoutingDecision) (m : String),
      i < cases.length → env i = .ok e → e.route = .ok d →
      agent_phase e d = .error (.exc m) →
      ((evaluate env t cases).getD i default).verdict = .fail ∧
      ((evaluate env t cases).getD i default).error = some m) ∧
    (∀ (env : Nat → Except String CaseEnv) (t : ℚ) (cases : List EvalCase)
        (i : Nat) (e : CaseEnv) (d : RoutingDecision),
      i < cases.length → env i = .ok e → e.route = .ok d →
      agent_phase e d = .error .timeoutError →
      ((evaluate env t cases).getD i default).verdict = .fail ∧
      ((evaluate env t cases).getD i default).error.isSome = true) ∧
    (error_count (evaluate envPair 60 [caseA, caseB]) = 1 ∧
     pass_count (evaluate envPair 60 [caseA, caseB]) = 1 ∧
     pass_rate (evaluate envPair 60 [caseA, caseB]) = 1/2 ∧
     ((evaluate envPair 60 [caseA, caseB]).getD 1 default).error = none ∧
     ((evaluate envPair 60 [caseA, caseB]).getD 1 default).verdict
        = .pass) := by
  refine ⟨evaluate_length, ?_, ?_, ?_, ?_, ?_⟩
  · intro env t cases i e m hi henv hroute
    rw [evaluate_getD env t cases i hi, henv]
    show (evaluate_case e t (cases.getD i default)).verdict = .fail ∧
      (evaluate_case e t (cases.getD i default)).error = some m
    unfold evaluate_case
    rw [hroute]
    exact ⟨rfl, rfl⟩
  · intro env t cases i e hi henv hroute
    rw [evaluate_getD env t cases i hi, henv]
    show (evaluate_case e t (cases.getD i default)).verdict = .fail ∧
      (evaluate_case e t (cases.getD i default)).error.isSome = true
    unfold evaluate_case
    rw [hroute]
    exact ⟨rfl, rfl⟩
  · intro env t cases i e d m hi henv hroute hex
    rw [evaluate_getD env t cases i hi, henv]
    show (evaluate_case e t (cases.getD i default)).verdict = .fail ∧
      (evaluate_case e t (cases.getD i default)).error = some m
    rw [evaluate_case_route_ok e t (cases.getD i default) d hroute, hex]
    exact ⟨rfl, rfl⟩
  · intro env t cases i e d hi henv hroute hex
    rw [evaluate_getD env t cases i hi, henv]
    show (evaluate_case e t (cases.getD i default)).verdict = .fail ∧
      (evaluate_case e t (cases.getD i default)).error.isSome = true
    rw [evaluate_case_route_ok e t (cases.getD i default) d hroute, hex]
    exact ⟨rfl, rfl⟩
  · have hv : determine_verdict (evaluate_routing caseB okDecisionFin)
        (evaluate_tool_usage caseB [])
        (evaluate_response_quality caseB "fine" []) = .pass := by
      unfold determine_verdict
      rw [if_neg (by decide),
        if_pos ⟨by decide, by decide,
          show (1/2 : ℚ) ≤ 1 by norm_num⟩]
    have hlist : evaluate envPair 60 [caseA, caseB]
        = [case_outcome (.ok envBoom) 60 caseA,
           case_outcome (.ok envOk) 60 caseB] := by
      simp [evaluate, List.enum, List.enumFrom, envPair]
    have hA : case_outcome (.ok envBoom) 60 caseA
        = excCaseResult caseA "boom" := rfl
    have hB : case_outcome (.ok envOk) 60 caseB
        = evaluate_case envOk 60 caseB := rfl
    have he2 : (evaluate_case envOk 60 caseB).error = none := rfl
    have hv2 : (evaluate_case envOk 60 caseB).verdict = Verdict.pass := hv
    rw [hlist, hA, hB]
    refine ⟨?_, ?_, ?_, ?_, ?_⟩
    · simp [error_count, List.filter_cons, List.filter_nil,
        excCaseResult, he2]
    · simp [pass_count, List.filter_cons, List.filter_nil,
        excCaseResult, hv2]
    · simp [pass_rate, pass_count, List.filter_cons, List.filter_nil,
        excCaseResult, hv2]
    · exact he2
    · exact hv2

/-- Witness for C8: the first slot of the concrete two-case batch is the
route-raising case, and a one-case batch whose agent execution raises
is likewise captured. -/
theorem C8_case_isolation_witness :
    (((evaluate envPair 60 [caseA, caseB]).getD 0 default).verdict
        = Verdict.fail ∧
      ((evaluate envPair 60 [caseA, caseB]).getD 0 default).error
        = some "boom") ∧
    (((evaluate (fun _ => .ok envAgentBoom) 60 [caseA]).getD 0
          default).verdict = Verdict.fail ∧
      ((evaluate (fun _ => .ok envAgentBoom) 60 [caseA]).getD 0
          default).error = some "agent boom") :=
  ⟨C8_case_isolation.2.1 envPair 60 [caseA, caseB] 0 envBoom "boom"
      (by norm_num) rfl rfl,
   C8_case_isolation.2.2.2.1 (fun _ => .ok envAgentBoom) 60 [caseA] 0
      envAgentBoom okDecisionFin "agent boom" (by norm_num) rfl rfl rfl⟩

/-! ### Metrics theorems -/

/-- `mergeSort` under the decidable ≤ on ℚ produces an ascending list. -/
lemma sorted_mergeSort_le (l : List ℚ) :
    List.Sorted (· ≤ ·) (l.mergeSort (fun a b => decide (a ≤ b))) := by
  have h := @List.sorted_mergeSort ℚ (fun a b => decide (a ≤ b))
    (by intro a b c hab hbc; simp only [decide_eq_true_eq] at *; linarith)
    (by intro a b; simpa using le_total a b) l
  exact h.imp (by intro a b hab; simpa using hab)

/-- C9: the percentile aggregator returns 0 with no latency results,
and otherwise returns the element of an ascending reordering of the
latencies at nearest-rank index `min ⌊count * percentile⌋ (count - 1)`;
on the latencies 100..1000 ms this puts p50 in [500, 600] and
p95 ≥ 900. -/
theorem C9_percentile_nearest_rank (results : List CaseResult) (p : ℚ) :
    (latency_results results = [] → percentile_latency results p = 0) ∧
    (latency_results results ≠ [] →
      (((latency_results results).map (fun r => r.total_ms)).mergeSort
          (fun a b => decide (a ≤ b))).Perm
        ((latency_results results).map (fun r => r.total_ms)) ∧
      List.Sorted (· ≤ ·)
        (((latency_results results).map (fun r => r.total_ms)).mergeSort
          (fun a b => decide (a ≤ b))) ∧
      percentile_latency results p
        = (((latency_results results).map (fun r => r.total_ms)).mergeSort
            (fun a b => decide (a ≤ b))).getD
            (min (Int.toNat ⌊((latency_results results).length : ℚ) * p⌋)
              ((latency_results results).length - 1)) 0) ∧
    (500 ≤ p50_latency_ms tenLatencies ∧ p50_latency_ms tenLatencies ≤ 600 ∧
      900 ≤ p95_latency_ms tenLatencies) := by
  refine ⟨?_, ?_, ?_⟩
  · intro h
    unfold percentile_latency
    rw [if_pos (by simp [h])]
  · intro h
    refine ⟨List.mergeSort_perm _ _, sorted_mergeSort_le _, ?_⟩
    unfold percentile_latency
    rw [if_neg (by simpa [List.isEmpty_iff] using h)]
  · have hls : (latency_results tenLatencies).map (fun r => r.total_ms)
        = ([100, 200, 300, 400, 500, 600, 700, 800, 900, 1000] : List ℚ) :=
      rfl
    have hlen : (latency_results tenLatencies).length = 10 := rfl
    have hsort : List.Sorted (· ≤ ·)
        ([100, 200, 300, 400, 500, 600, 700, 800, 900, 1000] : List ℚ) := by
      norm_num [List.sorted_cons]
    have hms : (([100, 200, 300, 400, 500, 600, 700, 800, 900,
          1000] : List ℚ).mergeSort (fun a b => decide (a ≤ b)))
        = [100, 200, 300, 400, 500, 600, 700, 800, 900, 1000] :=
      List.eq_of_perm_of_sorted (List.mergeSort_perm _ _)
        (sorted_mergeSort_le _) hsort
    have h50 : p50_latency_ms tenLatencies = 600 := by
      unfold p50_latency_ms percentile_latency
      rw [if_neg (by decide), hls, hms, hlen]
      rw [show ⌊((10 : ℕ) : ℚ) * (50/100)⌋ = 5 by norm_num]
      rfl
    have h95 : p95_latency_ms tenLatencies = 1000 := by
      unfold p95_latency_ms percentile_latency
      rw [if_neg (by decide), hls, hms, hlen]
      rw [show ⌊((10 : ℕ) : ℚ) * (95/100)⌋ = 9 by norm_num]
      rfl
    rw [h50, h95]
    norm_num

/-- Witness for C9: ten concrete latency results take the non-empty
branch of the characterization. -/
theorem C9_percentile_nearest_rank_witness :
    percentile_latency tenLatencies (50/100)
      = (((latency_results tenLatencies).map (fun r => r.total_ms)).mergeSort
          (fun a b => decide (a ≤ b))).getD
          (min (Int.toNat ⌊((latency_results tenLatencies).length : ℚ)
              * (50/100)⌋)
            ((latency_results tenLatencies).length - 1)) 0 :=
  ((C9_percentile_nearest_rank tenLatencies (50/100)).2.1
    (by decide)).2.2

/-- C10: `execute_multi_agent` executes exactly the requested agents
that are registered (keys in request order), so every key of the
returned mapping is one of the three domain identifiers and the generic
type — which is never registered — contributes no entry even when
explicitly requested. -/
theorem C10_multi_agent_skips_unregistered
    (exec : AgentType → Except String AgentResponse)
    (agents : List AgentType) :
    ((execute_multi_agent exec agents).map Prod.fst
      = (agents.filter (fun a => registeredAgents.contains a)).map
          AgentType.value) ∧
    (∀ kv ∈ execute_multi_agent exec agents,
      (kv.1 = "finance" ∨ kv.1 = "legal" ∨ kv.1 = "healthcare") ∧
      kv.1 ≠ "general") := by
  constructor
  · unfold execute_multi_agent
    rw [List.map_map]
    apply List.map_congr_left
    intro a _
    cases hex : exec a <;> simp [hex]
  · intro kv hkv
    unfold execute_multi_agent at hkv
    rw [List.mem_map] at hkv
    obtain ⟨a, ha, hkey⟩ := hkv
    have hreg : registeredAgents.contains a = true :=
      by simpa using (List.mem_filter.mp ha).2
    have hval : kv.1 = a.value := by
      cases hex : exec a <;> rw [hex] at hkey <;> simp [← hkey]
    have hmem : a = AgentType.finance ∨ a = AgentType.legal
        ∨ a = AgentType.healthcare := by
      cases a <;> simp_all [registeredAgents]
    rcases hmem with rfl | rfl | rfl <;> rw [hval] <;>
      exact ⟨by simp [AgentType.value], by simp [AgentType.value]⟩

/-- Witness for C10: a request containing the generic type yields only
the finance entry. -/
theorem C10_multi_agent_skips_unregistered_witness :
    ((("finance", respFine) : String × AgentResponse).1 = "finance" ∨
      (("finance", respFine) : String × AgentResponse).1 = "legal" ∨
      (("finance", respFine) : String × AgentResponse).1 = "healthcare") ∧
    (("finance", respFine) : String × AgentResponse).1 ≠ "general" :=
  (C10_multi_agent_skips_unregistered execOk
    [AgentType.general, AgentType.finance]).2
    ("finance", respFine) (by decide)

end Platform
